import Mathlib

/-!
Verification development for the function-calling test harness
(`src/openrouter_client.py`, `src/function_register.py`,
`src/function_validators.py`, `tests/test_runner.py`).

The Python code is shallowly embedded: JSON values become the mutual
inductive `Json` / `JsonList` / `JsonFields` (a Python dict is a
`JsonFields` association sequence keeping insertion order, with unique
keys), file stores (response cache, snapshot directory) become explicit
key-value states, and raised exceptions become `Except` / explicit error
results.  `json.dump` followed by `json.load` on a file is modelled as
the identity on the stored `Json` value.
-/

mutual

/-- Model of a Python JSON value (the payloads handled by the harness).
`fnum` stores the lexeme of a JSON real literal. -/
inductive Json where
  | null
  | bool (b : Bool)
  | num (n : Int)
  | fnum (lexeme : String)
  | str (s : String)
  | arr (elems : JsonList)
  | obj (fields : JsonFields)

/-- A Python list of JSON values. -/
inductive JsonList where
  | nil
  | cons (head : Json) (tail : JsonList)

/-- A Python dict with JSON values: key/value pairs in insertion order. -/
inductive JsonFields where
  | nil
  | cons (key : String) (value : Json) (tail : JsonFields)

end

deriving instance DecidableEq for Json

/-- Conversion of a `JsonList` to a Lean list. -/
def JsonList.toList : JsonList → List Json
  | .nil => []
  | .cons x xs => x :: xs.toList

/-- Conversion of a Lean list to a `JsonList`. -/
def JsonList.ofList : List Json → JsonList
  | [] => .nil
  | x :: xs => .cons x (JsonList.ofList xs)

/-- Conversion of a dict to a Lean association list. -/
def JsonFields.toList : JsonFields → List (String × Json)
  | .nil => []
  | .cons k v rest => (k, v) :: rest.toList

/-- Conversion of a Lean association list to a dict. -/
def JsonFields.ofList : List (String × Json) → JsonFields
  | [] => .nil
  | (k, v) :: rest => .cons k v (JsonFields.ofList rest)

/-- Number of entries of a dict (Python `len`). -/
def JsonFields.length : JsonFields → Nat
  | .nil => 0
  | .cons _ _ rest => rest.length + 1

/-- Python dict lookup `d.get(key)` (first matching key). -/
def JsonFields.lookupField : JsonFields → String → Option Json
  | .nil, _ => none
  | .cons k v rest, key => if k = key then some v else rest.lookupField key

/-- Python dict assignment `d[k] = v`: replace the value in place when the
key exists (keeping its position), otherwise append the new pair. -/
def JsonFields.set : JsonFields → String → Json → JsonFields
  | .nil, k, v => .cons k v .nil
  | .cons k' v' rest, k, v =>
    if k' = k then .cons k' v rest else .cons k' v' (rest.set k v)

/-- Field access `j[key]` on a JSON object, `none` when `j` is not an
object or the key is absent. -/
def Json.get (j : Json) (key : String) : Option Json :=
  match j with
  | .obj kvs => kvs.lookupField key
  | _ => none

mutual

/-- Python structural equality (`==`) on JSON values.  Dicts compare by
size plus per-key value equality; lists compare elementwise.  Numeric
cross-type Python equalities such as `True == 1` are not modelled; no
claim depends on them. -/
def Json.pyEq : Json → Json → Bool
  | .null, .null => true
  | .bool a, .bool b => a == b
  | .num a, .num b => a == b
  | .fnum a, .fnum b => a == b
  | .str a, .str b => a == b
  | .arr xs, .arr ys => JsonList.pyEqList xs ys
  | .obj xs, .obj ys => xs.length == ys.length && JsonFields.pyEqFields xs ys
  | _, _ => false

/-- Python `==` on lists of JSON values. -/
def JsonList.pyEqList : JsonList → JsonList → Bool
  | .nil, .nil => true
  | .cons x xs, .cons y ys => x.pyEq y && JsonList.pyEqList xs ys
  | _, _ => false

/-- Every key of the first dict is present in the second with a
Python-equal value. -/
def JsonFields.pyEqFields : JsonFields → JsonFields → Bool
  | .nil, _ => true
  | .cons k v rest, ys =>
    (match ys.lookupField k with
     | some w => v.pyEq w
     | none => false) && JsonFields.pyEqFields rest ys

end

/-- Python `==` on two dicts. -/
def pyDictEq (a b : JsonFields) : Bool := (Json.obj a).pyEq (Json.obj b)

mutual

/-- Size of a JSON value; used as recursion fuel for serialization (it
strictly bounds the nesting depth). -/
def Json.jsize : Json → Nat
  | .arr xs => xs.jsizeList + 1
  | .obj kvs => kvs.jsizeFields + 1
  | _ => 1

/-- Summed size of a list of JSON values. -/
def JsonList.jsizeList : JsonList → Nat
  | .nil => 0
  | .cons x xs => x.jsize + xs.jsizeList

/-- Summed size of a dict's values. -/
def JsonFields.jsizeFields : JsonFields → Nat
  | .nil => 0
  | .cons _ v rest => v.jsize + rest.jsizeFields

end

/-- Characters Python `str.strip` removes (ASCII whitespace). -/
def is_py_space (c : Char) : Bool :=
  c.toNat == 32 || c.toNat == 9 || c.toNat == 10 ||
  c.toNat == 11 || c.toNat == 12 || c.toNat == 13

/-- Python `str.strip()`. -/
def py_strip (s : String) : String :=
  String.mk (((s.toList.dropWhile is_py_space).reverse.dropWhile
      is_py_space).reverse)

/-- Python `str.lower()` (ASCII case mapping; the claims exercised here
use ASCII argument values only). -/
def py_lower (s : String) : String := String.mk (s.toList.map Char.toLower)

/-- Python `s.split(sep)` for a single-character separator: splits on
every occurrence, yielding `[""]` on the empty string. -/
def py_split_char (sep : Char) (s : String) : List String :=
  (splitChars s.toList).map String.mk
where
  splitChars : List Char → List (List Char)
    | [] => [[]]
    | c :: rest =>
      match splitChars rest with
      | [] => [[]]
      | group :: groups =>
        if c = sep then [] :: (group :: groups) else (c :: group) :: groups

/-- Whether a character occurs in a string (Python `c in s`). -/
def str_contains_char (s : String) (c : Char) : Bool := s.toList.contains c

/-- Whether `sub` occurs inside `s` (Python `sub in s`), by scanning. -/
def str_contains_sub (s sub : String) : Bool := scan s.toList
where
  scan : List Char → Bool
    | [] => sub.toList.isPrefixOf ([] : List Char)
    | c :: rest => sub.toList.isPrefixOf (c :: rest) || scan rest

mutual

/-- Python `repr` of a JSON-derived value (string quoting kept simple:
the values rendered here never contain quote characters). -/
def Json.pyRepr : Json → String
  | .null => "None"
  | .bool b => if b then "True" else "False"
  | .num n => toString n
  | .fnum lex => lex
  | .str s => "'" ++ s ++ "'"
  | .arr xs => "[" ++ JsonList.pyReprList xs ++ "]"
  | .obj kvs => "\x7b" ++ JsonFields.pyReprFields kvs ++ "\x7d"

/-- Comma-joined `repr` of list items. -/
def JsonList.pyReprList : JsonList → String
  | .nil => ""
  | .cons x .nil => x.pyRepr
  | .cons x rest => x.pyRepr ++ ", " ++ JsonList.pyReprList rest

/-- Comma-joined `repr` of dict entries. -/
def JsonFields.pyReprFields : JsonFields → String
  | .nil => ""
  | .cons k v .nil => "'" ++ k ++ "': " ++ v.pyRepr
  | .cons k v rest => "'" ++ k ++ "': " ++ v.pyRepr ++ ", " ++
      JsonFields.pyReprFields rest

end

/-- Python `str()` of a JSON-derived value: the string itself for
strings, `repr`-style rendering otherwise. -/
def py_str (v : Json) : String :=
  match v with
  | .str s => s
  | v => v.pyRepr

/-- Hexadecimal digit (lower case), as Python uses in escapes. -/
def hexChar (n : Nat) : Char :=
  if n < 10 then Char.ofNat (48 + n) else Char.ofNat (87 + n)

/-- Four-digit `\uXXXX` escape used by `json.dumps` with the default
`ensure_ascii=True` (basic-multilingual-plane characters). -/
def uEscape (n : Nat) : String :=
  "\\u" ++ String.mk [hexChar (n / 4096 % 16), hexChar (n / 256 % 16),
    hexChar (n / 16 % 16), hexChar (n % 16)]

/-- Escaping of one character inside a JSON string literal, following
CPython's encoder (everything outside the printable ASCII range is
escaped when `ensure_ascii` is on). -/
def json_quote_char (c : Char) : String :=
  if c.toNat = 34 then "\\\"" else if c.toNat = 92 then "\\\\"
  else if c.toNat = 10 then "\\n" else if c.toNat = 9 then "\\t"
  else if c.toNat = 13 then "\\r" else if c.toNat = 8 then "\\b"
  else if c.toNat = 12 then "\\f"
  else if c.toNat < 32 || c.toNat > 126 then uEscape c.toNat
  else String.mk [c]

/-- JSON string literal for `s`, as produced by `json.dumps`. -/
def json_quote (s : String) : String :=
  "\"" ++ (s.toList.map json_quote_char).foldl (· ++ ·) "" ++ "\""

/-- Boolean code-point-lexicographic comparison on character lists,
Python's `<=` on strings. -/
def charsLeb : List Char → List Char → Bool
  | [], _ => true
  | _ :: _, [] => false
  | a :: as, b :: bs =>
    if a.toNat < b.toNat then true
    else if b.toNat < a.toNat then false
    else charsLeb as bs

/-- Python `<=` on strings (code-point lexicographic). -/
def strLeb (a b : String) : Bool := charsLeb a.toList b.toList

/-- Key order used by `json.dumps(..., sort_keys=True)` on object fields. -/
def keyLe (a b : String × Json) : Prop := strLeb a.1 b.1 = true

instance : DecidableRel keyLe := fun a b => by
  unfold keyLe; infer_instance

/-- Sorting of an object's fields by key, the canonicalization performed
by `json.dumps(..., sort_keys=True)` (Python's sort is stable and dict
keys are unique, so any correct sort agrees with it). -/
def sortFields (kvs : List (String × Json)) : List (String × Json) :=
  List.insertionSort keyLe kvs

/-- Join with `json.dumps`' default item separator. -/
def joinComma : List String → String
  | [] => ""
  | [s] => s
  | s :: rest => s ++ ", " ++ joinComma rest

/-- Fuelled model of `json.dumps` (default separators,
`ensure_ascii=True`); `sort_keys` selects the canonical key ordering.
The fuel is instantiated with `Json.jsize`, which strictly bounds the
nesting depth. -/
def dumpsF : Nat → Bool → Json → String
  | 0, _, _ => ""
  | fuel + 1, sort_keys, v =>
    match v with
    | .null => "null"
    | .bool b => if b then "true" else "false"
    | .num n => toString n
    | .fnum lex => lex
    | .str s => json_quote s
    | .arr xs =>
        "[" ++ joinComma (xs.toList.map (dumpsF fuel sort_keys)) ++ "]"
    | .obj kvs =>
        let items := if sort_keys then sortFields kvs.toList else kvs.toList
        "\x7b" ++
        joinComma (items.map (fun kv =>
          json_quote kv.1 ++ ": " ++ dumpsF fuel sort_keys kv.2)) ++
        "\x7d"

/-- Model of `json.dumps`. -/
def json_dumps (sort_keys : Bool) (v : Json) : String :=
  dumpsF v.jsize sort_keys v

/-- Model of `OpenRouterClient._get_cache_key`: the key is
`md5(f"{user_query}::{schemas_str}::{self.model}").hexdigest()`.  The md5
hexdigest is a fixed deterministic digest of its input; the
content-addressed design treats it as collision-free, so the model uses
the pre-image string itself as the key.  (`lru_cache` memoisation does
not change the computed value and is dropped.) -/
def get_cache_key (model user_query schemas_str : String) : String :=
  user_query ++ "::" ++ schemas_str ++ "::" ++ model

/-- JSON inter-token whitespace. -/
def is_json_space (c : Char) : Bool :=
  c.toNat == 32 || c.toNat == 9 || c.toNat == 10 || c.toNat == 13

/-- Skip JSON whitespace. -/
def skip_ws (cs : List Char) : List Char := cs.dropWhile is_json_space

/-- Value of a hexadecimal digit. -/
def hexVal (c : Char) : Option Nat :=
  if 48 ≤ c.toNat && c.toNat ≤ 57 then some (c.toNat - 48)
  else if 97 ≤ c.toNat && c.toNat ≤ 102 then some (c.toNat - 87)
  else if 65 ≤ c.toNat && c.toNat ≤ 70 then some (c.toNat - 55)
  else none

/-- Body of a JSON string literal (after the opening quote), with the
escapes `json.loads` accepts; raw control characters are rejected, as
Python's default `strict=True` does. -/
def parse_string_body : List Char → Option (List Char × List Char)
  | [] => none
  | c :: rest =>
    if c.toNat == 34 then some ([], rest)
    else if c.toNat == 92 then
      match rest with
      | [] => none
      | e :: rest2 =>
        if e = 'u' then
          match rest2 with
          | h1 :: h2 :: h3 :: h4 :: rest3 =>
            match hexVal h1, hexVal h2, hexVal h3, hexVal h4 with
            | some a, some b, some c1, some d =>
              (parse_string_body rest3).map (fun p =>
                (Char.ofNat (a * 4096 + b * 256 + c1 * 16 + d) :: p.1, p.2))
            | _, _, _, _ => none
          | _ => none
        else
          match
            (if e.toNat == 34 then some '"' else if e.toNat == 92 then some '\\'
             else if e = '/' then some '/' else if e = 'n' then some '\n'
             else if e = 't' then some '\t' else if e = 'r' then some '\r'
             else if e = 'b' then some (Char.ofNat 8)
             else if e = 'f' then some (Char.ofNat 12) else none) with
          | some ch => (parse_string_body rest2).map (fun p => (ch :: p.1, p.2))
          | none => none
    else if c.toNat < 32 then none
    else (parse_string_body rest).map (fun p => (c :: p.1, p.2))

/-- Longest prefix of decimal digits together with the rest. -/
def span_digits (cs : List Char) : List Char × List Char :=
  (cs.takeWhile (fun c => 48 ≤ c.toNat && c.toNat ≤ 57),
   cs.dropWhile (fun c => 48 ≤ c.toNat && c.toNat ≤ 57))

/-- Numeric value of a digit string. -/
def digits_to_nat (ds : List Char) : Nat :=
  ds.foldl (fun acc c => acc * 10 + (c.toNat - 48)) 0

/-- A JSON number literal, per Python `json.loads`: an optional sign, an
integer part without leading zeros, optional fraction and exponent.  A
pure integer becomes `Json.num`; a literal with fraction or exponent
becomes a `Json.fnum` carrying its lexeme (Python would build a float). -/
def parse_number (neg : Bool) (cs : List Char) : Option (Json × List Char) :=
  match span_digits cs with
  | ([], _) => none
  | (ds, rest) =>
    if ds.length > 1 && ds.headD '0' = '0' then none
    else
      let sign_str : List Char := if neg then ['-'] else []
      match rest with
      | '.' :: rest2 =>
        match span_digits rest2 with
        | ([], _) => none
        | (fs, rest3) => parse_exponent (sign_str ++ ds ++ '.' :: fs) rest3
      | _ =>
        match rest with
        | e :: _ =>
          if e = 'e' || e = 'E' then parse_exponent (sign_str ++ ds) rest
          else some (int_result ds rest)
        | [] => some (int_result ds rest)
where
  int_result (ds rest' : List Char) : Json × List Char :=
    (Json.num (if neg then -(digits_to_nat ds : Int) else (digits_to_nat ds : Int)),
     rest')
  parse_exponent (lexeme : List Char) (rest : List Char) : Option (Json × List Char) :=
    match rest with
    | e :: rest2 =>
      if e = 'e' || e = 'E' then
        let (sgn, rest3) :=
          match rest2 with
          | s :: rest3' =>
            if s = '+' || s = '-' then ([s], rest3') else (([] : List Char), rest2)
          | [] => ([], rest2)
        match span_digits rest3 with
        | ([], _) => none
        | (es, rest4) =>
          some (Json.fnum (String.mk (lexeme ++ e :: (sgn ++ es))), rest4)
      else some (Json.fnum (String.mk lexeme), rest)
    | [] => some (Json.fnum (String.mk lexeme), rest)

/-- Removal of a key from a dict. -/
def JsonFields.remove : JsonFields → String → JsonFields
  | .nil, _ => .nil
  | .cons k v rest, key =>
    if k = key then rest.remove key else .cons k v (rest.remove key)

/-- Python dict construction from object entries `(k, v)` followed by the
already-built dict of the remaining entries: a duplicate key keeps the
first position but takes the later value. -/
def prepend_field (k : String) (v : Json) (rest : JsonFields) : JsonFields :=
  match rest.lookupField k with
  | some w => .cons k w (rest.remove k)
  | none => .cons k v rest

mutual

/-- Fuelled recursive-descent parser for a JSON value, modelling Python
`json.loads` (including its default acceptance of `NaN`, `Infinity` and
`-Infinity`).  Every recursive call decrements the fuel; the call depth
is bounded by twice the input length, so the fuel chosen in `json_loads`
never runs out on inputs Python accepts. -/
def parse_valueF : Nat → List Char → Option (Json × List Char)
  | 0, _ => none
  | fuel + 1, cs =>
    match skip_ws cs with
    | [] => none
    | c :: rest =>
      if c.toNat == 34 then
        (parse_string_body rest).map (fun p => (Json.str (String.mk p.1), p.2))
      else if c = '[' then
        match skip_ws rest with
        | ']' :: rest2 => some (Json.arr .nil, rest2)
        | _ => (parse_arr_itemsF fuel rest).map (fun p => (Json.arr (JsonList.ofList p.1), p.2))
      else if c.toNat == 123 then
        match skip_ws rest with
        | c2 :: rest2 =>
          if c2.toNat == 125 then some (Json.obj .nil, rest2)
          else (parse_obj_fieldsF fuel rest).map (fun p => (Json.obj p.1, p.2))
        | [] => none
      else if "null".toList.isPrefixOf (c :: rest) then
        some (Json.null, (c :: rest).drop 4)
      else if "true".toList.isPrefixOf (c :: rest) then
        some (Json.bool true, (c :: rest).drop 4)
      else if "false".toList.isPrefixOf (c :: rest) then
        some (Json.bool false, (c :: rest).drop 5)
      else if "NaN".toList.isPrefixOf (c :: rest) then
        some (Json.fnum "nan", (c :: rest).drop 3)
      else if "Infinity".toList.isPrefixOf (c :: rest) then
        some (Json.fnum "inf", (c :: rest).drop 8)
      else if "-Infinity".toList.isPrefixOf (c :: rest) then
        some (Json.fnum "-inf", (c :: rest).drop 9)
      else if c = '-' then parse_number true rest
      else if 48 ≤ c.toNat && c.toNat ≤ 57 then parse_number false (c :: rest)
      else none

/-- Comma-separated array items up to the closing bracket. -/
def parse_arr_itemsF : Nat → List Char → Option (List Json × List Char)
  | 0, _ => none
  | fuel + 1, cs =>
    match parse_valueF fuel cs with
    | none => none
    | some (v, rest) =>
      match skip_ws rest with
      | ',' :: rest2 =>
        (parse_arr_itemsF fuel rest2).map (fun p => (v :: p.1, p.2))
      | ']' :: rest2 => some ([v], rest2)
      | _ => none

/-- Comma-separated object entries up to the closing brace; a repeated
key overwrites the earlier value in place, as Python dict insertion does. -/
def parse_obj_fieldsF : Nat → List Char → Option (JsonFields × List Char)
  | 0, _ => none
  | fuel + 1, cs =>
    match skip_ws cs with
    | c :: rest =>
      if c.toNat == 34 then
        match parse_string_body rest with
        | none => none
        | some (key, rest2) =>
          match skip_ws rest2 with
          | ':' :: rest3 =>
            match parse_valueF fuel rest3 with
            | none => none
            | some (v, rest4) =>
              match skip_ws rest4 with
              | ',' :: rest5 =>
                (parse_obj_fieldsF fuel rest5).map (fun p =>
                  (prepend_field (String.mk key) v p.1, p.2))
              | c2 :: rest5 =>
                if c2.toNat == 125 then
                  some (JsonFields.cons (String.mk key) v .nil, rest5)
                else none
              | [] => none
          | _ => none
      else none
    | [] => none

end

/-- Model of Python `json.loads`: parse one JSON document surrounded by
optional whitespace; `none` models a raised `JSONDecodeError`.  Floating
point values are kept as lexemes (`Json.fnum`), not evaluated. -/
def json_loads (s : String) : Option Json :=
  match parse_valueF (2 * s.length + 4) s.toList with
  | some (v, rest) => if (skip_ws rest).isEmpty then some v else none
  | none => none

example : py_strip "  a b  " = "a b" := rfl
example : py_split_char ',' "a, b" = ["a", " b"] := rfl
example : py_split_char ',' "" = [""] := rfl
example : json_dumps true
    (Json.obj (.cons "b" (Json.num 1) (.cons "a" (Json.str "x") .nil))) =
    "\x7b\"a\": \"x\", \"b\": 1\x7d" := rfl
example : json_dumps false (Json.arr (.cons Json.null (.cons (Json.bool true) .nil))) =
    "[null, true]" := rfl
example : Json.pyEq (.obj (.cons "a" (.num 1) (.cons "b" (.num 2) .nil)))
    (.obj (.cons "b" (.num 2) (.cons "a" (.num 1) .nil))) = true := rfl

example : json_loads "not json" = none := rfl
example : json_loads " \x7b\"quantity\": 3, \"product_name\": \"monitors\"\x7d " =
    some (Json.obj (.cons "quantity" (.num 3)
      (.cons "product_name" (.str "monitors") .nil))) := rfl
example : json_loads "[1, -2.5e3, \"a\"]" =
    some (Json.arr (.cons (.num 1) (.cons (.fnum "-2.5e3") (.cons (.str "a") .nil)))) := rfl
example : json_loads "\x7b\"a\": 1\x7d x" = none := rfl
example : json_loads "" = none := rfl
example : json_loads "01" = none := rfl

/-- One entry of `message.tool_calls` as delivered by the provider: the
argument payload is still the raw JSON-encoded string. -/
structure ToolCallRecord where
  id : String
  type : String
  function_name : String
  function_arguments : String

/-- The provider response surface `call_with_functions` consumes:
`message.content`, `message.tool_calls` and `response.created`. -/
structure ProviderMessage where
  content : Option String
  tool_calls : List ToolCallRecord
  created : Int

/-- A processed tool call, after decoding its argument payload. -/
structure ParsedToolCall where
  id : String
  type : String
  function_name : String
  arguments : Json

/-- Rendering of a processed tool call into the result structure, as the
loop in `call_with_functions` builds it. -/
def ParsedToolCall.toJson (c : ParsedToolCall) : Json :=
  .obj (.cons "id" (.str c.id) (.cons "type" (.str c.type)
    (.cons "function" (.obj (.cons "name" (.str c.function_name)
      (.cons "arguments" c.arguments .nil))) .nil)))

/-- The tool-call loop of `call_with_functions` (lines 125-145): records
of type `"function"` are kept, and each argument payload goes through
`json.loads` with no surrounding handler, so a decode failure raises
(modelled as `Except.error`) and abandons the whole loop. -/
def process_tool_calls : List ToolCallRecord → Except String (List ParsedToolCall)
  | [] => .ok []
  | r :: rest =>
    if r.type = "function" then
      match json_loads r.function_arguments with
      | none => .error ("JSONDecodeError: " ++ r.function_arguments)
      | some args =>
        match process_tool_calls rest with
        | .error e => .error e
        | .ok tl => .ok (⟨r.id, r.type, r.function_name, args⟩ :: tl)
    else process_tool_calls rest

/-- An optional string as the JSON `content` field. -/
def opt_str : Option String → Json
  | some s => .str s
  | none => .null

/-- Construction of the `result` dict of `call_with_functions` from a
successful provider response: the echoed query, model and timestamp, the
normalized message, the processed `tool_calls` (when the provider sent
any), and the derived `function_call` alias for the first processed call.
A `json.loads` failure inside the loop propagates as `Except.error`. -/
def build_result (user_query model : String) (message : ProviderMessage) :
    Except String Json :=
  let base : Json → Json := fun msg =>
    .obj (.cons "user_query" (.str user_query)
      (.cons "model" (.str model)
      (.cons "timestamp" (.num message.created)
      (.cons "message" msg .nil))))
  if message.tool_calls.isEmpty then
    .ok (base (.obj (.cons "content" (opt_str message.content)
      (.cons "tool_calls" .null .nil))))
  else
    match process_tool_calls message.tool_calls with
    | .error e => .error e
    | .ok tcs =>
      let msg_fields : JsonFields :=
        .cons "content" (opt_str message.content)
          (.cons "tool_calls" (.arr (JsonList.ofList (tcs.map ParsedToolCall.toJson))) .nil)
      let msg_fields : JsonFields :=
        match tcs with
        | [] => msg_fields
        | first :: _ =>
          msg_fields.set "function_call"
            (.obj (.cons "name" (.str first.function_name)
              (.cons "arguments" first.arguments .nil)))
      .ok (base (.obj msg_fields))

/-- The `functions_called` list of the error branch,
`[func["name"] for func in function_schemas]`.  The `KeyError` Python
would raise on a schema without a `"name"` key is not modelled; theorems
about the error branch assume every schema carries a name. -/
def functions_called (function_schemas : List Json) : List Json :=
  function_schemas.map (fun s => (s.get "name").getD .null)

/-- Whether every schema carries a `"name"` key (so `functions_called`
raises no `KeyError`). -/
def schemas_named (function_schemas : List Json) : Bool :=
  function_schemas.all (fun s => (s.get "name").isSome)

/-- The structure returned by the `except` branch of
`call_with_functions`. -/
def error_result (e user_query : String) (function_schemas : List Json) : Json :=
  .obj (.cons "error" (.str e)
    (.cons "user_query" (.str user_query)
    (.cons "functions_called"
      (.arr (JsonList.ofList (functions_called function_schemas))) .nil)))

/-- The cache directory: one entry per file name, holding the stored
JSON document.  Writing prepends, reading takes the first match, so a
rewrite would shadow the old entry, as overwriting a file does. -/
structure CacheState where
  files : List (String × Json)

/-- Reading a cache file (`os.path.exists` + `json.load`). -/
def CacheState.read (c : CacheState) (path : String) : Option Json :=
  List.lookup path c.files

/-- Writing a cache file (`json.dump`). -/
def CacheState.write (c : CacheState) (path : String) (v : Json) : CacheState :=
  ⟨(path, v) :: c.files⟩

/-- The `functions` → `tools` wrapper sent to the provider. -/
def convert_functions_to_tools (functions : List Json) : List Json :=
  functions.map (fun f =>
    .obj (.cons "type" (.str "function") (.cons "function" f .nil)))

/-- Model of `OpenRouterClient.call_with_functions`.  The provider
capability is a fixed outcome `provider` (`Except.error` models a raised
transport/provider exception).  The returned `Nat` counts how many times
the provider was invoked by this call.  On a cache hit the stored
document is returned unchanged; on a miss the provider runs inside the
`try` block: any raise there (transport failure, or `json.loads` on a
malformed argument payload) lands in the `except` branch, which returns
the error structure without writing the cache. -/
def call_with_functions (provider : Except String ProviderMessage)
    (model user_query : String) (function_schemas : List Json)
    (use_cache : Bool) (cache : CacheState) : Json × CacheState × Nat :=
  let schemas_str := json_dumps true (.arr (JsonList.ofList function_schemas))
  let cache_key := get_cache_key model user_query schemas_str
  let cache_file := cache_key ++ ".json"
  match use_cache, cache.read cache_file with
  | true, some stored => (stored, cache, 0)
  | true, none => miss cache_file
  | false, _ => miss cache_file
where
  miss (cache_file : String) : Json × CacheState × Nat :=
    match provider with
    | .error e => (error_result e user_query function_schemas, cache, 1)
    | .ok message =>
      match build_result user_query model message with
      | .error e => (error_result e user_query function_schemas, cache, 1)
      | .ok result => (result, cache.write cache_file result, 1)

/-- Item set of a comma-containing expected string:
`set(item.strip() for item in expected_value.split(','))` (a Lean list
standing for the Python set; only membership is used). -/
def comma_items (s : String) : List String :=
  (py_split_char ',' s).map py_strip

/-- Item set the code derives from the actual value in the comma branch:
a string is split and stripped the same way, a list is stringified and
stripped per item, anything else becomes the singleton of its `str()`. -/
def actual_items_of (v : Json) : List String :=
  match v with
  | .str s => comma_items s
  | .arr xs => xs.toList.map (fun item => py_strip (py_str item))
  | _ => [py_str v]

/-- Python set equality of two JSON lists (mutual membership under
Python `==`), the list-vs-list branch `set(expected) != set(actual)`. -/
def py_set_eq (xs ys : List Json) : Bool :=
  xs.all (fun x => ys.any (fun y => x.pyEq y)) &&
  ys.all (fun y => xs.any (fun x => y.pyEq x))

/-- One key's comparison in the partial-match loop of
`_validate_arguments` (lines 353-385): the comma-splitting subset branch
for comma-containing expected strings, the order-insensitive set branch
when both sides are lists, and otherwise the case-insensitive stringified
comparison.  `none` means the key passes, `some reason` is the failure
reason returned by the loop. -/
def validate_key (key : String) (expected_value actual_value : Json) :
    Option String :=
  match expected_value with
  | .str s =>
    if str_contains_char s ',' then
      let expected_items := comma_items s
      let actual_items := actual_items_of actual_value
      if expected_items.all (fun item => actual_items.contains item) then none
      else some ("Параметр " ++ key ++ ": ожидались элементы, получено другое")
    else scalar_compare
  | .arr es =>
    match actual_value with
    | .arr as =>
      if py_set_eq es.toList as.toList then none
      else some ("Параметр " ++ key ++ ": ожидалось другое множество")
    | _ => scalar_compare
  | _ => scalar_compare
where
  scalar_compare : Option String :=
    if py_lower (py_str actual_value) = py_lower (py_str expected_value) then none
    else some ("Параметр " ++ key ++ ": значения различаются")

/-- The `for key, expected_value in expected.items()` loop of the
partial-match branch: a key absent from `actual` fails with the
missing-parameter reason, otherwise `validate_key` judges it; the first
failing key short-circuits. -/
def validate_partial_loop (actual : JsonFields) : JsonFields → Option String
  | .nil => none
  | .cons key expected_value rest =>
    match actual.lookupField key with
    | none => some ("Отсутствует обязательный параметр: " ++ key)
    | some actual_value =>
      match validate_key key expected_value actual_value with
      | some r => some r
      | none => validate_partial_loop actual rest

/-- Verdict record of `_validate_arguments`. -/
structure ValidationResult where
  valid : Bool
  reason : Option String
deriving DecidableEq

/-- Model of `OpenRouterClient._validate_arguments`: an empty `actual`
is rejected up front with the missing-arguments reason (before either
mode is consulted); partial match runs the per-key loop; full match
compares the two dicts with Python `==`. -/
def validate_arguments (actual expected : JsonFields)
    (partial_match : Bool) : ValidationResult :=
  if actual.length = 0 then
    ⟨false, some "Аргументы отсутствуют"⟩
  else if partial_match then
    match validate_partial_loop actual expected with
    | some r => ⟨false, some r⟩
    | none => ⟨true, none⟩
  else
    if pyDictEq actual expected then ⟨true, none⟩
    else ⟨false, some "Полное несоответствие"⟩

/-- The snapshot directory of `tests/test_runner.py`: one entry per
`(function_name, test_index)`, holding the stored JSON document
(`snapshots/<function>/<index>.json`). -/
structure SnapshotStore where
  entries : List ((String × Nat) × Json)

/-- Model of `load_snapshot`: read the snapshot file when it exists. -/
def load_snapshot (store : SnapshotStore) (function_name : String)
    (test_index : Nat) : Option Json :=
  List.lookup (function_name, test_index) store.entries

/-- Model of `save_snapshot`: write the snapshot file. -/
def save_snapshot (store : SnapshotStore) (function_name : String)
    (test_index : Nat) (data : Json) : SnapshotStore :=
  ⟨((function_name, test_index), data) :: store.entries⟩

/-- The observed snapshot value
`{"function": func_name, "arguments": func_args}`. -/
def current_snapshot (func_name : String) (func_args : Json) : Json :=
  .obj (.cons "function" (.str func_name)
    (.cons "arguments" func_args .nil))

/-- The snapshot block of `run_tests_for_function` (lines 163-182): on a
missing snapshot the observed value is saved and the status is `saved`;
on a Python-unequal stored snapshot the test status is forced to
`failed` with snapshot status `mismatch` and nothing is written; on an
equal one the status is kept and the snapshot status is `match`.
Returns (test status, snapshot status, store). -/
def snapshot_stage (store : SnapshotStore) (func_name : String)
    (test_index : Nat) (func_args : Json) (status : String) :
    String × String × SnapshotStore :=
  let current := current_snapshot func_name func_args
  match load_snapshot store func_name test_index with
  | none =>
    (status, "saved", save_snapshot store func_name test_index current)
  | some snapshot =>
    if snapshot.pyEq current then (status, "match", store)
    else ("failed", "mismatch", store)

/-- A Python callable as the registry inspects it: its `__name__`, its
`__module__`, and `str(param.annotation)` for each positional parameter
(`none` models `inspect.Parameter.empty`). -/
structure PyCallable where
  name : String
  module : String
  param_annotations : List (Option String)

/-- Model of `FunctionRegister._validate_function_signature`: exactly one
parameter, and an annotation, when present, must mention `Dict` or
`dict`. -/
def validate_function_signature (func : PyCallable) : Except String Unit :=
  if func.param_annotations.length ≠ 1 then
    .error ("Функция " ++ func.name ++ " должна принимать ровно 1 аргумент")
  else
    match func.param_annotations.headD none with
    | none => .ok ()
    | some ann_str =>
      if !str_contains_sub ann_str "Dict" && !str_contains_sub ann_str "dict" then
        .error ("Аргумент функции " ++ func.name ++ " должен быть Dict или dict")
      else .ok ()

/-- Model of `FunctionRegister._validate_schema` — the validation that
registration actually runs: the three required top-level fields, the
name match, `parameters` being a dict with `type == "object"` and a
`properties` key.  It performs no per-property checks. -/
def register_validate_schema (schema : JsonFields) (func_name : String) :
    Except String Unit :=
  if (schema.lookupField "name").isNone then
    .error ("Схема для " ++ func_name ++ " не содержит обязательное поле name")
  else if (schema.lookupField "description").isNone then
    .error ("Схема для " ++ func_name ++ " не содержит обязательное поле description")
  else if (schema.lookupField "parameters").isNone then
    .error ("Схема для " ++ func_name ++ " не содержит обязательное поле parameters")
  else if ¬ (schema.lookupField "name" = some (.str func_name)) then
    .error ("Имя в схеме не соответствует имени функции " ++ func_name)
  else
    match schema.lookupField "parameters" with
    | some (.obj params) =>
      if ¬ (params.lookupField "type" = some (.str "object")) then
        .error "Поле parameters.type должно быть object"
      else if (params.lookupField "properties").isNone then
        .error "Схема должна содержать parameters.properties"
      else .ok ()
    | _ => .error "Поле parameters должно быть словарем"

/-- A property definition passes the standalone per-property check of
`function_validators.validate_schema`: it has `type` and `description`,
and `enum`, when present, is a list. -/
def property_ok (prop_name : String) (prop_def : Json) : Except String Unit :=
  match prop_def.get "type" with
  | none => .error ("Свойство " ++ prop_name ++ " должно содержать поле type")
  | some _ =>
    match prop_def.get "description" with
    | none => .error ("Свойство " ++ prop_name ++ " должно содержать поле description")
    | some _ =>
      match prop_def.get "enum" with
      | none => .ok ()
      | some (.arr _) => .ok ()
      | some _ => .error ("Поле enum в свойстве " ++ prop_name ++ " должно быть списком")

/-- The per-property loop of `function_validators.validate_schema`. -/
def properties_loop : JsonFields → Except String Unit
  | .nil => .ok ()
  | .cons prop_name prop_def rest =>
    match property_ok prop_name prop_def with
    | .error e => .error e
    | .ok () => properties_loop rest

/-- Model of the standalone `function_validators.validate_schema`: the
top-level checks (here `parameters.get("type")` is consulted, combining
the dict and type tests) followed by the eager per-property loop.  This
function is defined in `src/function_validators.py` but is not invoked
by `FunctionRegister.register_function`. -/
def fv_validate_schema (schema : JsonFields) (func_name : String) :
    Except String Unit :=
  if (schema.lookupField "name").isNone then
    .error ("Схема для " ++ func_name ++ " не содержит обязательное поле name")
  else if (schema.lookupField "description").isNone then
    .error ("Схема для " ++ func_name ++ " не содержит обязательное поле description")
  else if (schema.lookupField "parameters").isNone then
    .error ("Схема для " ++ func_name ++ " не содержит обязательное поле parameters")
  else if ¬ (schema.lookupField "name" = some (.str func_name)) then
    .error ("Имя в схеме не соответствует имени функции " ++ func_name)
  else
    match schema.lookupField "parameters" with
    | some (.obj params) =>
      if ¬ (params.lookupField "type" = some (.str "object")) then
        .error "Поле parameters должно быть объектом с type=object"
      else
        match params.lookupField "properties" with
        | none => .error "Схема должна содержать parameters.properties"
        | some (.obj props) => properties_loop props
        | some _ => .error "AttributeError: properties without items"
    | _ => .error "Поле parameters должно быть объектом с type=object"

/-- A heap of Python dict objects: `FunctionRegister.get_schema` returns
`self._schemas[name].copy()`, and distinguishing the copy from the stored
dict requires object identity, so dicts live in addressed cells.  The
copy is shallow; only top-level mutation (`d[k] = v`) is modelled, which
is what the shallow copy protects against. -/
structure Heap where
  next : Nat
  cells : List (Nat × JsonFields)

/-- Dereference of a dict address. -/
def Heap.readCell (h : Heap) (addr : Nat) : Option JsonFields :=
  List.lookup addr h.cells

/-- Allocation of a fresh dict object. -/
def Heap.alloc (h : Heap) (d : JsonFields) : Nat × Heap :=
  (h.next, ⟨h.next + 1, (h.next, d) :: h.cells⟩)

/-- In-place Python assignment `d[k] = v` on the dict at `addr`. -/
def Heap.setItem (h : Heap) (addr : Nat) (k : String) (v : Json) : Heap :=
  ⟨h.next, h.cells.map (fun cell =>
    if cell.1 = addr then (cell.1, cell.2.set k v) else cell)⟩

/-- Assignment into a string-keyed Python dict kept as an association
list (replace in place, else append). -/
def assoc_set {α : Type} (l : List (String × α)) (k : String) (v : α) :
    List (String × α) :=
  if (List.lookup k l).isSome then
    l.map (fun kv => if kv.1 = k then (kv.1, v) else kv)
  else l ++ [(k, v)]

/-- The `FunctionInfo` record stored by the register; the schema is kept
by reference. -/
structure FunctionInfo where
  name : String
  func : PyCallable
  schema : Nat
  description : Json
  module : String

/-- State of a `FunctionRegister`: both maps address schema dicts on the
heap. -/
structure FunctionRegister where
  _functions : List (String × FunctionInfo)
  _schemas : List (String × Nat)

/-- The registered name: `name or function.__name__` (Python `or` also
falls through on an empty string). -/
def registered_name (function : PyCallable) (name : Option String) : String :=
  match name with
  | some n => if n = "" then function.name else n
  | none => function.name

/-- The stored description:
`description or schema.get("description", "")`. -/
def registered_description (schema : JsonFields) (description : Option String) :
    Json :=
  match description with
  | some d =>
    if d = "" then (schema.lookupField "description").getD (.str "") else .str d
  | none => (schema.lookupField "description").getD (.str "")

/-- Model of `FunctionRegister.register_function`: validate the callable
signature, validate the schema with `_validate_schema` (the register's
own, top-level-only validation), then store the `FunctionInfo` and the
schema (re-registration overwrites silently) and return the registered
name.  A validation failure raises (`Except.error`). -/
def register_function (reg : FunctionRegister) (heap : Heap)
    (function : PyCallable) (schema : JsonFields)
    (name : Option String) (description : Option String) :
    Except String (FunctionRegister × Heap × String) :=
  let func_name := registered_name function name
  match validate_function_signature function with
  | .error e => .error e
  | .ok () =>
    match register_validate_schema schema func_name with
    | .error e => .error e
    | .ok () =>
      let (addr, heap1) := heap.alloc schema
      let info : FunctionInfo :=
        ⟨func_name, function, addr, registered_description schema description,
          function.module⟩
      .ok (⟨assoc_set reg._functions func_name info,
            assoc_set reg._schemas func_name addr⟩, heap1, func_name)

/-- Model of `FunctionRegister.get_schema`: raise `KeyError` when the
name is unregistered, otherwise return `self._schemas[name].copy()` — a
freshly allocated shallow copy of the stored dict. -/
def get_schema (reg : FunctionRegister) (heap : Heap) (name : String) :
    Except String (Nat × Heap) :=
  match List.lookup name reg._schemas with
  | none => .error ("KeyError: Схема для функции " ++ name ++ " не найдена")
  | some addr =>
    match heap.readCell addr with
    | none => .error "dangling schema reference"
    | some d => .ok (heap.alloc d)

/-- C4 (counterexample): with `partial=false` and both `actual` and
`expected` empty, `_validate_arguments` reports invalid with the
missing-arguments reason — the claim says this full match is valid. -/
theorem full_match_empty_empty_counterexample :
    validate_arguments .nil .nil false =
      ⟨false, some "Аргументы отсутствуют"⟩ := rfl

/-- C4 (amended): with `partial=false`, matching is valid if and only if
`actual` is non-empty and the two mappings are Python-equal; the
empty-`actual` rejection runs before the mode split and so also rejects
the empty/empty full match. -/
theorem full_match_valid_iff_nonempty_and_equal (actual expected : JsonFields) :
    (validate_arguments actual expected false).valid = true ↔
      (actual.length ≠ 0 ∧ pyDictEq actual expected = true) := by
  unfold validate_arguments
  by_cases h : actual.length = 0
  · simp [h]
  · by_cases h2 : pyDictEq actual expected <;> simp [h, h2]

/-- C8: in partial-match mode, a key whose expected value is a string
containing a comma passes exactly when the set of trimmed expected items
is a subset of the item set derived from the actual value (a string
actual is split and trimmed the same way, a list actual is stringified
and trimmed per item); extra actual items are tolerated. -/
theorem partial_match_comma_subset (key s : String) (actual_value : Json)
    (h : str_contains_char s ',' = true) :
    validate_key key (.str s) actual_value = none ↔
      ∀ item ∈ comma_items s, item ∈ actual_items_of actual_value := by
  unfold validate_key
  simp only [h, if_true]
  by_cases hall : (comma_items s).all
      (fun item => (actual_items_of actual_value).contains item)
  · simp only [hall, if_true, true_iff]
    intro item hmem
    have := List.all_eq_true.mp hall item hmem
    exact List.elem_iff.mp this
  · simp only [hall, if_false]
    constructor
    · intro hcontra; cases hcontra
    · intro hforall
      exact absurd (List.all_eq_true.mpr (fun item hmem =>
        List.elem_iff.mpr (hforall item hmem))) hall

/-- C8 (witness): `expected "a, b"` against actual `"a, b, c"` passes the
comma-subset rule. -/
theorem partial_match_comma_subset_witness :
    validate_key "tags" (.str "a, b") (.str "a, b, c") = none :=
  (partial_match_comma_subset "tags" "a, b" (.str "a, b, c") rfl).mpr (by decide)

/-- C7: when the stored snapshot is Python-unequal to the observed
`{function, arguments}` value, the snapshot block leaves the store
untouched (no overwrite) and forces the test status to `failed`,
whatever the prior classification was. -/
theorem snapshot_mismatch_preserves_store_forces_failed
    (store : SnapshotStore) (func_name : String) (test_index : Nat)
    (func_args : Json) (status : String) (snapshot : Json)
    (hload : load_snapshot store func_name test_index = some snapshot)
    (hne : snapshot.pyEq (current_snapshot func_name func_args) = false) :
    snapshot_stage store func_name test_index func_args status =
      ("failed", "mismatch", store) := by
  unfold snapshot_stage
  simp [hload, hne]

/-- C7 (witness): a stored snapshot for `("weather", 1)` with city Minsk
against an observed call with city Brest: the prior status `passed` is
overridden to `failed` and the store is unchanged. -/
theorem snapshot_mismatch_preserves_store_forces_failed_witness :
    snapshot_stage
      ⟨[(("weather", 1), current_snapshot "weather"
          (.obj (.cons "city" (.str "Minsk") .nil)))]⟩
      "weather" 1 (.obj (.cons "city" (.str "Brest") .nil)) "passed" =
      ("failed", "mismatch",
        ⟨[(("weather", 1), current_snapshot "weather"
            (.obj (.cons "city" (.str "Minsk") .nil)))]⟩) :=
  snapshot_mismatch_preserves_store_forces_failed _ _ _ _ _ _ rfl rfl

/-- C6: for a key with no stored snapshot, the first check saves the
observed value and reports `saved`; re-checking the same key with a
Python-equal observed value reports `match`; re-checking it with a
Python-unequal observed value reports `mismatch`. -/
theorem snapshot_first_saved_then_match_then_mismatch
    (store : SnapshotStore) (func_name : String) (test_index : Nat)
    (a1 b a2 : Json) (st1 st2 st3 : String)
    (hmiss : load_snapshot store func_name test_index = none)
    (hsame : (current_snapshot func_name a1).pyEq
      (current_snapshot func_name b) = true)
    (hdiff : (current_snapshot func_name a1).pyEq
      (current_snapshot func_name a2) = false) :
    (snapshot_stage store func_name test_index a1 st1).2.1 = "saved" ∧
    (snapshot_stage store func_name test_index a1 st1).2.2 =
      save_snapshot store func_name test_index (current_snapshot func_name a1) ∧
    (snapshot_stage (save_snapshot store func_name test_index
        (current_snapshot func_name a1)) func_name test_index b st2).2.1 =
      "match" ∧
    (snapshot_stage (save_snapshot store func_name test_index
        (current_snapshot func_name a1)) func_name test_index a2 st3).2.1 =
      "mismatch" := by
  have hload : load_snapshot (save_snapshot store func_name test_index
      (current_snapshot func_name a1)) func_name test_index =
      some (current_snapshot func_name a1) := by
    simp [load_snapshot, save_snapshot, List.lookup]
  refine ⟨?_, ?_, ?_, ?_⟩
  · unfold snapshot_stage; simp [hmiss]
  · unfold snapshot_stage; simp [hmiss]
  · unfold snapshot_stage; simp [hload, hsame]
  · unfold snapshot_stage; simp [hload, hdiff]

/-- C6 (witness): an empty snapshot store, a first observation with city
Minsk (saved), the same observation again (match), and an observation
with city Brest (mismatch). -/
theorem snapshot_first_saved_then_match_then_mismatch_witness :
    (snapshot_stage ⟨[]⟩ "weather" 1
        (.obj (.cons "city" (.str "Minsk") .nil)) "passed").2.1 = "saved" ∧
    (snapshot_stage ⟨[]⟩ "weather" 1
        (.obj (.cons "city" (.str "Minsk") .nil)) "passed").2.2 =
      save_snapshot ⟨[]⟩ "weather" 1
        (current_snapshot "weather" (.obj (.cons "city" (.str "Minsk") .nil))) ∧
    (snapshot_stage (save_snapshot ⟨[]⟩ "weather" 1
        (current_snapshot "weather" (.obj (.cons "city" (.str "Minsk") .nil))))
        "weather" 1 (.obj (.cons "city" (.str "Minsk") .nil)) "passed").2.1 =
      "match" ∧
    (snapshot_stage (save_snapshot ⟨[]⟩ "weather" 1
        (current_snapshot "weather" (.obj (.cons "city" (.str "Minsk") .nil))))
        "weather" 1 (.obj (.cons "city" (.str "Brest") .nil)) "passed").2.1 =
      "mismatch" :=
  snapshot_first_saved_then_match_then_mismatch ⟨[]⟩ "weather" 1 _ _ _
    "passed" "passed" "passed" rfl rfl rfl

/-- The cache file name `call_with_functions` derives for a request. -/
def cache_file_for (model user_query : String)
    (function_schemas : List Json) : String :=
  get_cache_key model user_query
    (json_dumps true (.arr (JsonList.ofList function_schemas))) ++ ".json"

/-- C2 (counterexample): a provider message whose single tool call has
the argument payload `"not json"`.  `json.loads` raises, the outer
handler returns the error structure, and the raw string is not preserved
anywhere in a parsed message — the result has no `message` key at all. -/
theorem malformed_arguments_counterexample :
    call_with_functions
        (.ok ⟨some "ok", [⟨"call_1", "function", "create_order", "not json"⟩], 5⟩)
        "openai/gpt-3.5-turbo" "Order 3 monitors"
        [.obj (.cons "name" (.str "create_order") .nil)] true ⟨[]⟩ =
      (error_result "JSONDecodeError: not json" "Order 3 monitors"
        [.obj (.cons "name" (.str "create_order") .nil)], ⟨[]⟩, 1) ∧
    (error_result "JSONDecodeError: not json" "Order 3 monitors"
        [.obj (.cons "name" (.str "create_order") .nil)]).get "message" = none :=
  ⟨rfl, rfl⟩

/-- C2 (amended): when the provider message contains tool calls and some
`function`-typed record's argument payload fails JSON decoding, the
decode raises inside the guarded block and `call_with_functions` returns
the error structure (`error`, `user_query`, `functions_called`) without
touching the cache; no parsed message with a preserved raw string is
produced.  (The schemas are assumed to carry names so the error branch
itself raises no `KeyError`.) -/
theorem decode_failure_yields_error_result
    (model user_query e : String) (function_schemas : List Json)
    (cache : CacheState) (message : ProviderMessage)
    (hmiss : cache.read (cache_file_for model user_query function_schemas) = none)
    (hfail : process_tool_calls message.tool_calls = .error e)
    (hnamed : schemas_named function_schemas = true) :
    call_with_functions (.ok message) model user_query function_schemas
        true cache =
      (error_result e user_query function_schemas, cache, 1) := by
  have hne : message.tool_calls.isEmpty = false := by
    cases htc : message.tool_calls with
    | nil => rw [htc] at hfail; simp [process_tool_calls] at hfail
    | cons a l => rfl
  unfold call_with_functions call_with_functions.miss
  rw [cache_file_for] at hmiss
  simp only [hmiss]
  unfold build_result
  simp [hne, hfail]

/-- C2 (amended, witness): the theorem applied to the concrete malformed
payload of the counterexample scenario. -/
theorem decode_failure_yields_error_result_witness :
    call_with_functions
        (.ok ⟨some "ok", [⟨"call_9", "function", "weather", "city: Minsk"⟩], 3⟩)
        "openai/gpt-3.5-turbo" "What is the weather"
        [.obj (.cons "name" (.str "weather") .nil)] true ⟨[]⟩ =
      (error_result "JSONDecodeError: city: Minsk" "What is the weather"
        [.obj (.cons "name" (.str "weather") .nil)], ⟨[]⟩, 1) :=
  decode_failure_yields_error_result _ _ _ _ _ _ rfl rfl rfl

/-- C5: for a fixed (query, descriptor set, model), a first call on a
cache miss computes the result, stores it, and reports one provider
invocation; an immediately repeated call is a hit that returns the
stored entry unchanged with zero further provider invocations, so both
calls return structurally identical results and the provider ran exactly
once. -/
theorem cache_miss_then_hit_idempotent
    (message : ProviderMessage) (model user_query : String)
    (function_schemas : List Json) (cache : CacheState) (result : Json)
    (hmiss : cache.read (cache_file_for model user_query function_schemas) = none)
    (hbuild : build_result user_query model message = .ok result) :
    call_with_functions (.ok message) model user_query function_schemas
        true cache =
      (result,
        cache.write (cache_file_for model user_query function_schemas) result,
        1) ∧
    call_with_functions (.ok message) model user_query function_schemas true
        (cache.write (cache_file_for model user_query function_schemas) result) =
      (result,
        cache.write (cache_file_for model user_query function_schemas) result,
        0) := by
  rw [cache_file_for] at hmiss
  constructor
  · unfold call_with_functions call_with_functions.miss
    simp only [hmiss, hbuild]
    rfl
  · unfold call_with_functions
    simp [CacheState.read, CacheState.write, List.lookup, cache_file_for]

/-- C5 (witness): a provider message with no tool calls against an empty
cache: the first call stores and returns the base result once, the
second call replays it with no provider invocation. -/
theorem cache_miss_then_hit_idempotent_witness :
    call_with_functions (.ok ⟨some "hello", [], 7⟩) "openai/gpt-3.5-turbo"
        "Say hi" [] true ⟨[]⟩ =
      ((.obj (.cons "user_query" (.str "Say hi")
          (.cons "model" (.str "openai/gpt-3.5-turbo")
          (.cons "timestamp" (.num 7)
          (.cons "message" (.obj (.cons "content" (.str "hello")
            (.cons "tool_calls" .null .nil))) .nil))))),
        CacheState.write ⟨[]⟩ (cache_file_for "openai/gpt-3.5-turbo" "Say hi" [])
          (.obj (.cons "user_query" (.str "Say hi")
            (.cons "model" (.str "openai/gpt-3.5-turbo")
            (.cons "timestamp" (.num 7)
            (.cons "message" (.obj (.cons "content" (.str "hello")
              (.cons "tool_calls" .null .nil))) .nil))))), 1) ∧
    call_with_functions (.ok ⟨some "hello", [], 7⟩) "openai/gpt-3.5-turbo"
        "Say hi" [] true
        (CacheState.write ⟨[]⟩ (cache_file_for "openai/gpt-3.5-turbo" "Say hi" [])
          (.obj (.cons "user_query" (.str "Say hi")
            (.cons "model" (.str "openai/gpt-3.5-turbo")
            (.cons "timestamp" (.num 7)
            (.cons "message" (.obj (.cons "content" (.str "hello")
              (.cons "tool_calls" .null .nil))) .nil)))))) =
      ((.obj (.cons "user_query" (.str "Say hi")
          (.cons "model" (.str "openai/gpt-3.5-turbo")
          (.cons "timestamp" (.num 7)
          (.cons "message" (.obj (.cons "content" (.str "hello")
            (.cons "tool_calls" .null .nil))) .nil))))),
        CacheState.write ⟨[]⟩ (cache_file_for "openai/gpt-3.5-turbo" "Say hi" [])
          (.obj (.cons "user_query" (.str "Say hi")
            (.cons "model" (.str "openai/gpt-3.5-turbo")
            (.cons "timestamp" (.num 7)
            (.cons "message" (.obj (.cons "content" (.str "hello")
              (.cons "tool_calls" .null .nil))) .nil))))), 0) :=
  cache_miss_then_hit_idempotent _ _ _ _ _ _ rfl rfl

/-- C9: when the provider call raises on a cache miss, the call returns
the error structure (its `error` field holds the exception text), the
cache is left without any entry for this key, and a repeated call with
the same request invokes the provider again (one further invocation)
instead of replaying the failure.  (The schemas are assumed to carry
names so the error branch itself raises no `KeyError`.) -/
theorem provider_failure_not_cached_and_retried
    (e model user_query : String) (function_schemas : List Json)
    (cache : CacheState)
    (hmiss : cache.read (cache_file_for model user_query function_schemas) = none)
    (hnamed : schemas_named function_schemas = true) :
    call_with_functions (.error e) model user_query function_schemas
        true cache =
      (error_result e user_query function_schemas, cache, 1) ∧
    (error_result e user_query function_schemas).get "error" =
      some (.str e) ∧
    (call_with_functions (.error e) model user_query function_schemas true
      ((call_with_functions (.error e) model user_query function_schemas
        true cache).2.1)).2.2 = 1 := by
  rw [cache_file_for] at hmiss
  have h1 : call_with_functions (.error e) model user_query function_schemas
      true cache = (error_result e user_query function_schemas, cache, 1) := by
    unfold call_with_functions call_with_functions.miss
    simp only [hmiss]
  refine ⟨h1, rfl, ?_⟩
  rw [h1]
  unfold call_with_functions call_with_functions.miss
  simp only [hmiss]

/-- C9 (witness): a raised provider exception against an empty cache for
a one-descriptor request. -/
theorem provider_failure_not_cached_and_retried_witness :
    call_with_functions (.error "timeout") "openai/gpt-3.5-turbo"
        "Order 3 monitors" [.obj (.cons "name" (.str "create_order") .nil)]
        true ⟨[]⟩ =
      (error_result "timeout" "Order 3 monitors"
        [.obj (.cons "name" (.str "create_order") .nil)], ⟨[]⟩, 1) ∧
    (error_result "timeout" "Order 3 monitors"
        [.obj (.cons "name" (.str "create_order") .nil)]).get "error" =
      some (.str "timeout") ∧
    (call_with_functions (.error "timeout") "openai/gpt-3.5-turbo"
      "Order 3 monitors" [.obj (.cons "name" (.str "create_order") .nil)] true
      ((call_with_functions (.error "timeout") "openai/gpt-3.5-turbo"
        "Order 3 monitors" [.obj (.cons "name" (.str "create_order") .nil)]
        true ⟨[]⟩).2.1)).2.2 = 1 :=
  provider_failure_not_cached_and_retried _ _ _ _ _ rfl rfl

/-- Characters with equal code points are equal. -/
theorem char_eq_of_toNat_eq {a b : Char} (h : a.toNat = b.toNat) : a = b := by
  have h2 := Char.ofNat_toNat a
  rw [← h2, h, Char.ofNat_toNat]

/-- Strings with equal character lists are equal. -/
theorem string_eq_of_toList_eq {a b : String} (h : a.toList = b.toList) :
    a = b := by
  cases a; cases b; simp_all [String.toList]

/-- Totality of the lexicographic comparison. -/
theorem charsLeb_total : ∀ a b : List Char,
    charsLeb a b = true ∨ charsLeb b a = true
  | [], _ => Or.inl rfl
  | _ :: _, [] => Or.inr rfl
  | a :: as, b :: bs => by
    by_cases h1 : a.toNat < b.toNat
    · left; simp [charsLeb, h1]
    · by_cases h2 : b.toNat < a.toNat
      · right; simp [charsLeb, h1, h2]
      · have ih := charsLeb_total as bs
        simp [charsLeb, h1, h2]
        exact ih

/-- Transitivity of the lexicographic comparison. -/
theorem charsLeb_trans : ∀ a b c : List Char,
    charsLeb a b = true → charsLeb b c = true → charsLeb a c = true
  | [], _, _, _, _ => rfl
  | _ :: _, [], _, hab, _ => by simp [charsLeb] at hab
  | _ :: _, _ :: _, [], _, hbc => by simp [charsLeb] at hbc
  | a :: as, b :: bs, c :: cs, hab, hbc => by
    simp only [charsLeb] at hab hbc ⊢
    by_cases h1 : a.toNat < b.toNat
    · by_cases h2 : b.toNat < c.toNat
      · simp [show a.toNat < c.toNat by omega]
      · simp only [h2, if_false] at hbc
        by_cases h3 : c.toNat < b.toNat
        · simp [h3] at hbc
        · simp [show a.toNat < c.toNat by omega]
    · simp only [h1, if_false] at hab
      by_cases h4 : b.toNat < a.toNat
      · simp [h4] at hab
      · simp only [h4, if_false] at hab
        have heq : a.toNat = b.toNat := by omega
        by_cases h2 : b.toNat < c.toNat
        · simp [show a.toNat < c.toNat by omega]
        · simp only [h2, if_false] at hbc
          by_cases h3 : c.toNat < b.toNat
          · simp [h3] at hbc
          · simp only [h3, if_false] at hbc
            have h5 : ¬ a.toNat < c.toNat := by omega
            have h6 : ¬ c.toNat < a.toNat := by omega
            simp only [h5, h6, if_false]
            exact charsLeb_trans as bs cs hab hbc

/-- Antisymmetry of the lexicographic comparison. -/
theorem charsLeb_antisymm : ∀ a b : List Char,
    charsLeb a b = true → charsLeb b a = true → a = b
  | [], [], _, _ => rfl
  | [], _ :: _, _, hba => by simp [charsLeb] at hba
  | _ :: _, [], hab, _ => by simp [charsLeb] at hab
  | a :: as, b :: bs, hab, hba => by
    simp only [charsLeb] at hab hba
    by_cases h1 : a.toNat < b.toNat
    · have h2 : ¬ b.toNat < a.toNat := by omega
      simp [h1, h2] at hba
    · by_cases h2 : b.toNat < a.toNat
      · simp [h1, h2] at hab
      · simp only [h1, h2, if_false] at hab hba
        have heq : a = b := char_eq_of_toNat_eq (by omega)
        rw [heq, charsLeb_antisymm as bs hab hba]

/-- The strict part of the field-key order (used to make sorted orders
unique on duplicate-free keys). -/
def keyLt (a b : String × Json) : Prop := keyLe a b ∧ a.1 ≠ b.1

instance : IsTotal (String × Json) keyLe :=
  ⟨fun a b => charsLeb_total a.1.toList b.1.toList⟩

instance : IsTrans (String × Json) keyLe :=
  ⟨fun _ _ _ hab hbc => charsLeb_trans _ _ _ hab hbc⟩

instance : IsAntisymm (String × Json) keyLt :=
  ⟨fun _ _ hab hba =>
    absurd (string_eq_of_toList_eq (charsLeb_antisymm _ _ hab.1 hba.1)) hab.2⟩

/-- Two permuted field lists with duplicate-free keys sort to the same
canonical order. -/
theorem sortFields_perm_eq (l1 l2 : List (String × Json))
    (h : List.Perm l1 l2) (nd : (l1.map Prod.fst).Nodup) :
    sortFields l1 = sortFields l2 := by
  have p1 : List.Perm (sortFields l1) l1 := List.perm_insertionSort keyLe l1
  have p2 : List.Perm (sortFields l2) l2 := List.perm_insertionSort keyLe l2
  have q : List.Perm (sortFields l1) (sortFields l2) :=
    p1.trans (h.trans p2.symm)
  have s1 : List.Sorted keyLe (sortFields l1) := List.sorted_insertionSort keyLe l1
  have s2 : List.Sorted keyLe (sortFields l2) := List.sorted_insertionSort keyLe l2
  have nd1 : ((sortFields l1).map Prod.fst).Nodup := ((p1.map Prod.fst).nodup_iff).mpr nd
  have nd2' : (l2.map Prod.fst).Nodup := ((h.map Prod.fst).nodup_iff).mp nd
  have nd2 : ((sortFields l2).map Prod.fst).Nodup := ((p2.map Prod.fst).nodup_iff).mpr nd2'
  have strict : ∀ l : List (String × Json), List.Sorted keyLe l →
      (l.map Prod.fst).Nodup → List.Sorted keyLt l := by
    intro l hs hn
    have hp : List.Pairwise (fun a b : String × Json => a.1 ≠ b.1) l :=
      List.pairwise_map.mp hn
    exact (hs.and hp).imp (fun hx => ⟨hx.1, hx.2⟩)
  exact List.eq_of_perm_of_sorted q (strict _ s1 nd1) (strict _ s2 nd2)

/-- Canonical serialization of an object is invariant under permuting
its fields (duplicate-free keys), at every fuel. -/
theorem dumpsF_obj_perm (fuel : Nat) (f1 f2 : JsonFields)
    (h : List.Perm f1.toList f2.toList)
    (nd : (f1.toList.map Prod.fst).Nodup) :
    dumpsF fuel true (.obj f1) = dumpsF fuel true (.obj f2) := by
  cases fuel with
  | zero => rfl
  | succ n =>
    simp only [dumpsF, if_true]
    rw [sortFields_perm_eq _ _ h nd]

/-- Dict size as a sum over its entries. -/
theorem jsizeFields_eq_sum : (f : JsonFields) →
    f.jsizeFields = (f.toList.map (fun kv => kv.2.jsize)).sum
  | .nil => rfl
  | .cons k v rest => by
    simp [JsonFields.jsizeFields, JsonFields.toList, jsizeFields_eq_sum rest]

/-- List size as a sum over its elements. -/
theorem jsizeList_eq_sum : (xs : JsonList) →
    xs.jsizeList = (xs.toList.map Json.jsize).sum
  | .nil => rfl
  | .cons x rest => by
    simp [JsonList.jsizeList, JsonList.toList, jsizeList_eq_sum rest]

/-- Round trip of the list conversion. -/
theorem jsonList_toList_ofList : (l : List Json) →
    (JsonList.ofList l).toList = l
  | [] => rfl
  | x :: xs => by simp [JsonList.ofList, JsonList.toList, jsonList_toList_ofList xs]

/-- Fuel is preserved when the fields of an object are permuted. -/
theorem jsize_eq_of_field_perm (f1 f2 : JsonFields)
    (h : List.Perm f1.toList f2.toList) :
    (Json.obj f1).jsize = (Json.obj f2).jsize := by
  have hs : f1.jsizeFields = f2.jsizeFields := by
    rw [jsizeFields_eq_sum, jsizeFields_eq_sum]
    exact (h.map (fun kv => kv.2.jsize)).sum_eq
  simp [Json.jsize, hs]

/-- Two descriptors related by permuting the key/value pairs of one
object (with duplicate-free keys, as Python dicts have). -/
def descriptor_fields_perm (d1 d2 : Json) : Prop :=
  ∃ f1 f2 : JsonFields, d1 = .obj f1 ∧ d2 = .obj f2 ∧
    List.Perm f1.toList f2.toList ∧ (f1.toList.map Prod.fst).Nodup

/-- Sizes agree elementwise across field-permuted descriptor lists. -/
theorem forall2_jsize_eq {l1 l2 : List Json}
    (h : List.Forall₂ descriptor_fields_perm l1 l2) :
    l1.map Json.jsize = l2.map Json.jsize := by
  induction h with
  | nil => rfl
  | cons hd tl ih =>
    obtain ⟨f1, f2, rfl, rfl, hperm, hnd⟩ := hd
    simp only [List.map, ih, List.cons.injEq, and_true]
    exact jsize_eq_of_field_perm _ _ hperm

/-- Canonical serializations agree elementwise across field-permuted
descriptor lists, at every fuel. -/
theorem forall2_dumpsF_eq {l1 l2 : List Json} (fuel : Nat)
    (h : List.Forall₂ descriptor_fields_perm l1 l2) :
    l1.map (dumpsF fuel true) = l2.map (dumpsF fuel true) := by
  induction h with
  | nil => rfl
  | cons hd tl ih =>
    obtain ⟨f1, f2, rfl, rfl, hperm, hnd⟩ := hd
    simp only [List.map, ih, List.cons.injEq, and_true]
    exact dumpsF_obj_perm fuel _ _ hperm hnd

/-- C1 (amended): the cache key is invariant under reordering the keys
inside each descriptor object — the canonicalization `sort_keys=True`
actually provides — for any query and model. -/
theorem cache_key_descriptor_key_order_invariant
    (model user_query : String) (l1 l2 : List Json)
    (h : List.Forall₂ descriptor_fields_perm l1 l2) :
    get_cache_key model user_query
        (json_dumps true (.arr (JsonList.ofList l1))) =
      get_cache_key model user_query
        (json_dumps true (.arr (JsonList.ofList l2))) := by
  have hsize : (Json.arr (JsonList.ofList l1)).jsize =
      (Json.arr (JsonList.ofList l2)).jsize := by
    simp [Json.jsize, jsizeList_eq_sum, jsonList_toList_ofList,
      forall2_jsize_eq h]
  have hdumps : json_dumps true (.arr (JsonList.ofList l1)) =
      json_dumps true (.arr (JsonList.ofList l2)) := by
    unfold json_dumps
    rw [hsize]
    generalize (Json.arr (JsonList.ofList l2)).jsize = fuel
    cases fuel with
    | zero => rfl
    | succ n =>
      simp only [dumpsF, jsonList_toList_ofList]
      rw [forall2_dumpsF_eq n h]
  unfold get_cache_key
  rw [hdumps]

/-- The `create_card` descriptor used by the C1 scenario. -/
def descr_create_card : Json :=
  .obj (.cons "name" (.str "create_card")
    (.cons "description" (.str "Create a card")
    (.cons "parameters" (.obj (.cons "type" (.str "object")
      (.cons "properties" (.obj (.cons "name"
        (.obj (.cons "type" (.str "string")
          (.cons "description" (.str "Card name") .nil))) .nil)) .nil)))
      .nil)))

/-- The `create_order` descriptor used by the C1 scenario. -/
def descr_create_order : Json :=
  .obj (.cons "name" (.str "create_order")
    (.cons "description" (.str "Create an order")
    (.cons "parameters" (.obj (.cons "type" (.str "object")
      (.cons "properties" (.obj (.cons "quantity"
        (.obj (.cons "type" (.str "integer")
          (.cons "description" (.str "How many") .nil))) .nil)) .nil)))
      .nil)))

/-- C1 (counterexample): swapping the order of two descriptors in the
list changes the serialized schemas string and with it the cache key
(`sort_keys=True` sorts only the keys inside each object, not the list),
so the permuted call resolves to a different cache file. -/
theorem cache_key_list_permutation_counterexample :
    get_cache_key "openai/gpt-3.5-turbo" "Order 3 monitors"
        (json_dumps true (.arr (.cons descr_create_card
          (.cons descr_create_order .nil)))) ≠
      get_cache_key "openai/gpt-3.5-turbo" "Order 3 monitors"
        (json_dumps true (.arr (.cons descr_create_order
          (.cons descr_create_card .nil)))) := by
  decide

/-- C1 (amended, witness): reordering the keys inside a single
descriptor leaves the cache key unchanged. -/
theorem cache_key_descriptor_key_order_invariant_witness :
    get_cache_key "openai/gpt-3.5-turbo" "Say hi"
        (json_dumps true (.arr (JsonList.ofList
          [.obj (.cons "name" (.str "f")
            (.cons "description" (.str "d") .nil))]))) =
      get_cache_key "openai/gpt-3.5-turbo" "Say hi"
        (json_dumps true (.arr (JsonList.ofList
          [.obj (.cons "description" (.str "d")
            (.cons "name" (.str "f") .nil))]))) :=
  cache_key_descriptor_key_order_invariant _ _ _ _
    (List.Forall₂.cons
      ⟨.cons "name" (.str "f") (.cons "description" (.str "d") .nil),
       .cons "description" (.str "d") (.cons "name" (.str "f") .nil),
       rfl, rfl, by decide, by decide⟩
      List.Forall₂.nil)

/-- A schema whose single property `city` has a description but no
`type` field. -/
def schema_missing_property_type : JsonFields :=
  .cons "name" (.str "weather")
    (.cons "description" (.str "Get the weather")
    (.cons "parameters" (.obj (.cons "type" (.str "object")
      (.cons "properties" (.obj (.cons "city"
        (.obj (.cons "description" (.str "City name") .nil)) .nil))
      .nil))) .nil))

/-- C3 (counterexample): registering a callable under a descriptor whose
property `city` lacks a `type` field succeeds — `register_function` only
runs the register's own top-level `_validate_schema` — while the
standalone `function_validators.validate_schema`, which registration
never invokes, would reject the same descriptor. -/
theorem register_accepts_property_without_type_counterexample :
    (register_function ⟨[], []⟩ ⟨0, []⟩
        ⟨"weather", "src.functions.weather", [some "Dict"]⟩
        schema_missing_property_type none none).isOk = true ∧
    fv_validate_schema schema_missing_property_type "weather" =
      .error "Свойство city должно содержать поле type" :=
  ⟨rfl, rfl⟩

/-- C3 (amended): registration succeeds exactly when the callable's
signature check and the register's top-level schema checks (required
fields, name match, `parameters` a dict with `type == "object"` and a
`properties` key) pass; the per-property `type`/`description`/`enum`
checks are not consulted by registration — they exist only in the
standalone `function_validators.validate_schema`. -/
theorem register_function_checks_only_top_level
    (reg : FunctionRegister) (heap : Heap) (function : PyCallable)
    (schema : JsonFields) (name : Option String) (description : Option String) :
    (register_function reg heap function schema name description).isOk = true ↔
      ((validate_function_signature function).isOk = true ∧
       (register_validate_schema schema
          (registered_name function name)).isOk = true) := by
  unfold register_function
  cases hs : validate_function_signature function with
  | error e => simp [hs, Except.isOk, Except.toBool]
  | ok u =>
    cases u
    cases hr : register_validate_schema schema (registered_name function name) with
    | error e => simp [hs, hr, Except.isOk, Except.toBool]
    | ok u => cases u; simp [hs, hr, Except.isOk, Except.toBool]

/-- Mutating one cell leaves every other cell unchanged. -/
theorem lookup_setcell_ne (cells : List (Nat × JsonFields))
    (a addr : Nat) (k : String) (v : Json) (hne : addr ≠ a) :
    List.lookup addr (cells.map (fun cell =>
      if cell.1 = a then (cell.1, cell.2.set k v) else cell)) =
    List.lookup addr cells := by
  induction cells with
  | nil => rfl
  | cons c rest ih =>
    obtain ⟨c1, c2⟩ := c
    simp only [List.map]
    by_cases hc : c1 = a
    · rw [if_pos (show (c1, c2).1 = a from hc)]
      have hb : (addr == c1) = false := by simp; omega
      simp [List.lookup, hb, ih]
    · rw [if_neg (show ¬ (c1, c2).1 = a from hc)]
      by_cases hac : addr = c1
      · subst hac
        simp [List.lookup]
      · have hb : (addr == c1) = false := by simp [hac]
        simp [List.lookup, hb, ih]

/-- C10: `get_schema` returns a copy of the stored descriptor: the copy
lives at a fresh address, assigning a top-level key on the copy leaves
the registry's stored dict unchanged, and a later `get_schema` of the
same name still returns the original mapping. -/
theorem get_schema_returns_independent_copy
    (reg : FunctionRegister) (heap : Heap) (name k : String) (v : Json)
    (addr : Nat) (d : JsonFields)
    (hlook : List.lookup name reg._schemas = some addr)
    (hcell : heap.readCell addr = some d)
    (hlt : addr < heap.next) :
    ∃ copyAddr heap1,
      get_schema reg heap name = .ok (copyAddr, heap1) ∧
      copyAddr ≠ addr ∧
      heap1.readCell copyAddr = some d ∧
      (heap1.setItem copyAddr k v).readCell addr = some d ∧
      ∃ copyAddr2 heap2,
        get_schema reg (heap1.setItem copyAddr k v) name =
          .ok (copyAddr2, heap2) ∧
        heap2.readCell copyAddr2 = some d := by
  refine ⟨heap.next, ⟨heap.next + 1, (heap.next, d) :: heap.cells⟩, ?_, ?_, ?_, ?_, ?_⟩
  · unfold get_schema
    simp only [hlook, hcell]
    rfl
  · omega
  · simp [Heap.readCell, List.lookup]
  · have hm : (Heap.setItem ⟨heap.next + 1, (heap.next, d) :: heap.cells⟩
        heap.next k v).readCell addr =
        (Heap.readCell ⟨heap.next + 1, (heap.next, d) :: heap.cells⟩ addr) := by
      unfold Heap.setItem Heap.readCell
      exact lookup_setcell_ne _ _ _ _ _ (by omega)
    rw [hm]
    have : (addr == heap.next) = false := by simp; omega
    unfold Heap.readCell
    simp only [List.lookup, this]
    exact hcell
  · have hm : (Heap.setItem ⟨heap.next + 1, (heap.next, d) :: heap.cells⟩
        heap.next k v).readCell addr = some d := by
      have h1 : (Heap.setItem ⟨heap.next + 1, (heap.next, d) :: heap.cells⟩
          heap.next k v).readCell addr =
          (Heap.readCell ⟨heap.next + 1, (heap.next, d) :: heap.cells⟩ addr) := by
        unfold Heap.setItem Heap.readCell
        exact lookup_setcell_ne _ _ _ _ _ (by omega)
      rw [h1]
      have : (addr == heap.next) = false := by simp; omega
      unfold Heap.readCell
      simp only [List.lookup, this]
      exact hcell
    refine ⟨(Heap.setItem ⟨heap.next + 1, (heap.next, d) :: heap.cells⟩
        heap.next k v).next,
      ⟨(Heap.setItem ⟨heap.next + 1, (heap.next, d) :: heap.cells⟩
          heap.next k v).next + 1,
        ((Heap.setItem ⟨heap.next + 1, (heap.next, d) :: heap.cells⟩
          heap.next k v).next, d) ::
        (Heap.setItem ⟨heap.next + 1, (heap.next, d) :: heap.cells⟩
          heap.next k v).cells⟩, ?_, ?_⟩
    · unfold get_schema
      simp only [hlook, hm]
      rfl
    · simp [Heap.readCell, List.lookup]

/-- C10 (witness): a registry holding one schema at cell 0; the copy is
allocated at cell 1, overwriting its `name` on the copy leaves cell 0
unchanged and a later lookup still sees the original mapping. -/
theorem get_schema_returns_independent_copy_witness :
    ∃ copyAddr heap1,
      get_schema ⟨[], [("weather", 0)]⟩
          ⟨1, [(0, JsonFields.cons "name" (.str "weather") .nil)]⟩ "weather" =
        .ok (copyAddr, heap1) ∧
      copyAddr ≠ 0 ∧
      heap1.readCell copyAddr =
        some (JsonFields.cons "name" (.str "weather") .nil) ∧
      (heap1.setItem copyAddr "name" (.str "hacked")).readCell 0 =
        some (JsonFields.cons "name" (.str "weather") .nil) ∧
      ∃ copyAddr2 heap2,
        get_schema ⟨[], [("weather", 0)]⟩
            (heap1.setItem copyAddr "name" (.str "hacked")) "weather" =
          .ok (copyAddr2, heap2) ∧
        heap2.readCell copyAddr2 =
          some (JsonFields.cons "name" (.str "weather") .nil) :=
  get_schema_returns_independent_copy ⟨[], [("weather", 0)]⟩
    ⟨1, [(0, JsonFields.cons "name" (.str "weather") .nil)]⟩
    "weather" "name" (.str "hacked") 0
    (JsonFields.cons "name" (.str "weather") .nil) rfl rfl (by decide)
